import Mathlib

/-
Verification of the telemetry simulator node (src/ros2_scripts/mock_jetson_node.py).

The node holds two pieces of mutable state: a tick counter `count` (initially 0)
and a mode flag `shadow_on` (initially False).  A 20 Hz timer fires
`publish_telemetry`, which publishes three values derived from the state and then
increments the counter; an inbound message on the toggle channel fires
`toggle_callback`, which flips the mode flag and logs the new value.

The embedding below models the state as a structure, each callback as a pure
function on that structure, and the outbound publish calls as an ordered list of
events.  ROS float payloads are modelled as real numbers; `math.sin` is
`Real.sin`.
-/

namespace MockJetson

/-- Vector part of a ROS geometry_msgs Vector3: three float components. -/
structure Vector3 where
  x : ℝ
  y : ℝ
  z : ℝ

/-- A ROS geometry_msgs Twist message: linear and angular Vector3 parts. -/
structure Twist where
  linear : Vector3
  angular : Vector3

/-- A freshly constructed `Twist()` has every component zero, matching the ROS
message default of 0.0 for each float64 field. -/
def Twist.init : Twist := ⟨⟨0, 0, 0⟩, ⟨0, 0, 0⟩⟩

/-- The mutable state of MockJetsonNode set up in `__init__`: the tick counter
`self.count` and the mode flag `self.shadow_on`. -/
structure NodeState where
  count : Nat
  shadow_on : Bool

/-- The state after `__init__`: `self.count = 0`, `self.shadow_on = False`. -/
def initState : NodeState := ⟨0, false⟩

/-- One outbound publish call made by the node during a timer firing. -/
inductive Event where
  | pubVel (msg : Twist)
  | pubMargin (value : ℝ)
  | pubShadow (value : Bool)

/-- Result of `toggle_callback`: the new node state, the value the Python
function returns to its caller, and the flag value interpolated into the log
message. -/
structure ToggleResult where
  state : NodeState
  ret : Option Bool
  logged : Bool

/-- `toggle_callback(self, msg)`: sets `self.shadow_on = not self.shadow_on`,
then logs the new value.  The message payload `msg` is never consulted, and the
function body has no return statement, so Python returns `None`. -/
def toggle_callback (msg : Bool) (s : NodeState) : ToggleResult :=
  let s' := { s with shadow_on := !s.shadow_on }
  { state := s', ret := none, logged := s'.shadow_on }

/-- `publish_telemetry(self)`: computes `t = self.count * 0.1`, builds a fresh
`Twist` with `linear.x = 1.0 * (0.5 + 0.5 * math.sin(t))` and publishes it, sets
`margin = 2.0`, overwrites it with `0.2` when `self.shadow_on` holds, publishes
the margin, publishes `self.shadow_on`, and finally runs `self.count += 1`.
The returned event list records the publish calls in program order; the returned
state is the state after the counter increment. -/
noncomputable def publish_telemetry (s : NodeState) : NodeState × List Event :=
  let t : ℝ := (s.count : ℝ) * 0.1
  let vel_msg : Twist :=
    { Twist.init with linear := { Twist.init.linear with x := 1.0 * (0.5 + 0.5 * Real.sin t) } }
  let margin : ℝ := 2.0
  let margin : ℝ := if s.shadow_on then 0.2 else margin
  ({ s with count := s.count + 1 },
    [Event.pubVel vel_msg, Event.pubMargin margin, Event.pubShadow s.shadow_on])

/-- The Twist messages published on nav/cmd_vel among a firing's events. -/
def pubVelMsgs (es : List Event) : List Twist :=
  es.filterMap fun e =>
    match e with
    | Event.pubVel m => some m
    | _ => none

/-- The linear.x components of the Twist messages published on nav/cmd_vel. -/
def pubVelXs (es : List Event) : List ℝ :=
  (pubVelMsgs es).map fun m => m.linear.x

/-- The float values published on nav/margin among a firing's events. -/
def pubMarginVals (es : List Event) : List ℝ :=
  es.filterMap fun e =>
    match e with
    | Event.pubMargin v => some v
    | _ => none

/-- The bool values published on nav/shadow_toggle among a firing's events. -/
def pubShadowVals (es : List Event) : List Bool :=
  es.filterMap fun e =>
    match e with
    | Event.pubShadow b => some b
    | _ => none

/-- The velocity waveform of the node as a function of the tick counter, read
off from lines 30 and 32 of the source: `t = count * 0.1`,
`1.0 * (0.5 + 0.5 * math.sin(t))`. -/
noncomputable def linearVelocity (n : Nat) : ℝ :=
  1.0 * (0.5 + 0.5 * Real.sin ((n : ℝ) * 0.1))

/-- `publish_telemetry` when each of the three publish calls may raise: the
booleans say whether the corresponding publish call succeeds.  The source wraps
no publish call in a try block, so a raising call aborts the firing right there:
the remaining statements, including `self.count += 1`, do not run and the
exception escapes the callback. -/
noncomputable def publish_telemetry_exc (velOk marginOk shadowOk : Bool)
    (s : NodeState) : Except Unit (NodeState × List Event) :=
  let t : ℝ := (s.count : ℝ) * 0.1
  let vel_msg : Twist :=
    { Twist.init with linear := { Twist.init.linear with x := 1.0 * (0.5 + 0.5 * Real.sin t) } }
  if velOk then
    let margin : ℝ := 2.0
    let margin : ℝ := if s.shadow_on then 0.2 else margin
    if marginOk then
      if shadowOk then
        Except.ok ({ s with count := s.count + 1 },
          [Event.pubVel vel_msg, Event.pubMargin margin, Event.pubShadow s.shadow_on])
      else Except.error ()
    else Except.error ()
  else Except.error ()

/-- Claim C1: on every tick, the linear velocity published on nav/cmd_vel is
exactly `baseSpeed * (0.5 + 0.5 * sin(tick * timeStep))` with `baseSpeed = 1.0`
and `timeStep = 0.1`, i.e. `1.0 * (0.5 + 0.5 * sin(0.1 * n))` where `n` is the
current tick counter. -/
theorem C1_published_velocity_formula (s : NodeState) :
    pubVelXs (publish_telemetry s).2 = [1.0 * (0.5 + 0.5 * Real.sin (0.1 * (s.count : ℝ)))] := by
  simp [publish_telemetry, pubVelXs, pubVelMsgs, Twist.init, mul_comm]

/-- Claim C2: for every tick `n`, `linearVelocity n` lies in the closed interval
`[0, 1]`, and `linearVelocity 0 = 0.5`. -/
theorem C2_velocity_bounded :
    (∀ n : Nat, 0 ≤ linearVelocity n ∧ linearVelocity n ≤ 1) ∧ linearVelocity 0 = 0.5 := by
  constructor
  · intro n
    unfold linearVelocity
    constructor
    · nlinarith [Real.neg_one_le_sin ((n : ℝ) * 0.1)]
    · nlinarith [Real.sin_le_one ((n : ℝ) * 0.1)]
  · unfold linearVelocity
    norm_num

/-- Claim C3: on every tick the margin published on nav/margin is exactly 2.0
when the mode flag is false and exactly 0.2 when it is true, and these are the
only margin values a firing ever publishes. -/
theorem C3_margin_values (n : Nat) :
    pubMarginVals (publish_telemetry ⟨n, false⟩).2 = [2.0] ∧
    pubMarginVals (publish_telemetry ⟨n, true⟩).2 = [0.2] ∧
    ∀ s : NodeState,
      pubMarginVals (publish_telemetry s).2 = [if s.shadow_on then 0.2 else 2.0] := by
  refine ⟨?_, ?_, fun s => ?_⟩ <;> simp [publish_telemetry, pubMarginVals]

/-- Claim C4: on every tick the bool published on nav/shadow_toggle equals the
mode flag read at that tick; a firing never changes the mode flag, and the
toggle handler is the operation that mutates it. -/
theorem C4_shadow_mirrors_mode (s : NodeState) :
    pubShadowVals (publish_telemetry s).2 = [s.shadow_on] ∧
    (publish_telemetry s).1.shadow_on = s.shadow_on ∧
    ∀ m : Bool, (toggle_callback m s).state.shadow_on = !s.shadow_on := by
  refine ⟨?_, ?_, fun m => ?_⟩ <;> simp [publish_telemetry, pubShadowVals, toggle_callback]

/-- Claim C5 counterexample: the tick-1 velocity after one toggle is the value
actually published, namely `0.5 + 0.5 * sin 0.1`, and that value is below 0.55,
hence more than 0.04 away from the 0.599 the claim states. -/
theorem C5_counterexample :
    pubVelXs (publish_telemetry (toggle_callback true (publish_telemetry initState).1).state).2
      = [0.5 + 0.5 * Real.sin 0.1] ∧
    0.5 + 0.5 * Real.sin 0.1 < 0.55 ∧
    0.04 < |0.599 - (0.5 + 0.5 * Real.sin 0.1)| := by
  have hlt : Real.sin 0.1 < 0.1 := Real.sin_lt (by norm_num)
  have hv : (0.5 : ℝ) + 0.5 * Real.sin 0.1 < 0.55 := by nlinarith
  refine ⟨?_, hv, ?_⟩
  · simp [publish_telemetry, toggle_callback, initState, pubVelXs, pubVelMsgs, Twist.init]
    norm_num
  · rw [abs_of_pos (by nlinarith)]
    nlinarith

/-- Claim C5 (amended): from the initial state, the tick-0 firing publishes
velocity 0.5, margin 2.0, shadow false; after one toggle delivery, the tick-1
firing publishes velocity `0.5 + 0.5 * sin 0.1 ≈ 0.5499` (strictly between
0.549 and 0.55), margin 0.2, shadow true. -/
theorem C5_scenario :
    (pubVelXs (publish_telemetry initState).2 = [0.5] ∧
     pubMarginVals (publish_telemetry initState).2 = [2.0] ∧
     pubShadowVals (publish_telemetry initState).2 = [false]) ∧
    (pubVelXs (publish_telemetry (toggle_callback true (publish_telemetry initState).1).state).2
       = [0.5 + 0.5 * Real.sin 0.1] ∧
     0.549 < 0.5 + 0.5 * Real.sin 0.1 ∧
     0.5 + 0.5 * Real.sin 0.1 < 0.55 ∧
     pubMarginVals (publish_telemetry (toggle_callback true (publish_telemetry initState).1).state).2
       = [0.2] ∧
     pubShadowVals (publish_telemetry (toggle_callback true (publish_telemetry initState).1).state).2
       = [true]) := by
  have hlt : Real.sin 0.1 < 0.1 := Real.sin_lt (by norm_num)
  have hgt : (0.1 : ℝ) - 0.1 ^ 3 / 4 < Real.sin 0.1 :=
    Real.sin_gt_sub_cube (by norm_num) (by norm_num)
  refine ⟨⟨?_, ?_, ?_⟩, ?_, by nlinarith, by nlinarith, ?_, ?_⟩ <;>
    simp [publish_telemetry, toggle_callback, initState, pubVelXs, pubVelMsgs,
      pubMarginVals, pubShadowVals, Twist.init] <;>
    norm_num

/-- Claim C6: the toggle handler is an involution on the mode flag — applying it
twice restores the original flag — and concretely, delivering two toggles
between tick 0 and tick 1 from the initial state leaves the tick-1 firing
publishing margin 2.0 and shadow false. -/
theorem C6_toggle_involution :
    (∀ (m1 m2 : Bool) (s : NodeState),
      (toggle_callback m1 (toggle_callback m2 s).state).state.shadow_on = s.shadow_on) ∧
    (pubMarginVals (publish_telemetry
        (toggle_callback true (toggle_callback true (publish_telemetry initState).1).state).state).2
      = [2.0] ∧
     pubShadowVals (publish_telemetry
        (toggle_callback true (toggle_callback true (publish_telemetry initState).1).state).state).2
      = [false]) := by
  refine ⟨fun m1 m2 s => ?_, ?_, ?_⟩ <;>
    simp [toggle_callback, publish_telemetry, initState, pubMarginVals, pubShadowVals]

/-- Claim C7: every firing increments the tick counter by exactly one (in
particular the counter strictly increases and is never reset), and the firing's
publish calls happen in the order velocity, margin, shadow, each computed from
the counter value and mode flag read before the increment. -/
theorem C7_firing_order_and_increment (s : NodeState) :
    (publish_telemetry s).1.count = s.count + 1 ∧
    s.count < (publish_telemetry s).1.count ∧
    (publish_telemetry s).2 =
      [Event.pubVel { Twist.init with
          linear := { Twist.init.linear with x := linearVelocity s.count } },
       Event.pubMargin (if s.shadow_on then 0.2 else 2.0),
       Event.pubShadow s.shadow_on] := by
  refine ⟨rfl, Nat.lt_succ_self _, ?_⟩
  simp [publish_telemetry, linearVelocity, Twist.init]

/-- Claim C8 counterexample: the toggle handler flips the flag to true but its
Python return value is None, not the new post-flip value. -/
theorem C8_counterexample :
    (toggle_callback true initState).ret = none ∧
    (toggle_callback true initState).state.shadow_on = true ∧
    (toggle_callback true initState).ret
      ≠ some (toggle_callback true initState).state.shadow_on := by
  refine ⟨rfl, rfl, ?_⟩
  simp [toggle_callback, initState]

/-- Claim C8 (amended): the toggle handler flips the current mode flag, logs the
new post-flip value, leaves the tick counter untouched, and returns None (no
value) to its caller. -/
theorem C8_toggle_flips_and_logs (msg : Bool) (s : NodeState) :
    (toggle_callback msg s).state.shadow_on = !s.shadow_on ∧
    (toggle_callback msg s).logged = !s.shadow_on ∧
    (toggle_callback msg s).state.count = s.count ∧
    (toggle_callback msg s).ret = none := by
  simp [toggle_callback]

/-- Claim C9 counterexample: when the first publish call raises, the firing from
the initial state ends in an uncaught error — the exception is not caught and
logged inside the callback, contradicting the claimed catch-and-continue
behaviour. -/
theorem C9_counterexample :
    publish_telemetry_exc false true true initState = Except.error () ∧
    publish_telemetry_exc true false true initState = Except.error () ∧
    publish_telemetry_exc true true false initState = Except.error () := by
  refine ⟨?_, ?_, ?_⟩ <;> simp [publish_telemetry_exc, initState]

/-- Claim C9 (amended): the node wraps no publish call in a handler: if any of
the three publish calls raises, the firing aborts there with the exception
propagating out uncaught (so the counter is not incremented and no later
publish runs), the failed call is not retried, and when all publishes succeed
the firing behaves exactly as `publish_telemetry`. -/
theorem C9_publish_failure_propagates (s : NodeState) :
    publish_telemetry_exc false true true s = Except.error () ∧
    publish_telemetry_exc true false true s = Except.error () ∧
    publish_telemetry_exc true true false s = Except.error () ∧
    publish_telemetry_exc true true true s = Except.ok (publish_telemetry s) := by
  refine ⟨?_, ?_, ?_, ?_⟩ <;> simp [publish_telemetry_exc, publish_telemetry]

/-- Claim C10: every firing publishes exactly one Twist on nav/cmd_vel, and in
it every component other than linear.x — linear.y, linear.z and all three
angular components — is exactly zero, because the message is a freshly
default-constructed Twist with only linear.x assigned. -/
theorem C10_only_linear_x_populated (s : NodeState) :
    (pubVelMsgs (publish_telemetry s).2).map
        (fun m => (m.linear.y, m.linear.z, m.angular.x, m.angular.y, m.angular.z))
      = [((0 : ℝ), (0 : ℝ), (0 : ℝ), (0 : ℝ), (0 : ℝ))] ∧
    (pubVelMsgs (publish_telemetry s).2).length = 1 := by
  refine ⟨?_, ?_⟩ <;> simp [publish_telemetry, pubVelMsgs, Twist.init]

end MockJetson
